import Mathlib

/-!
Shallow embedding of `src/solution.py` (class `Earthquakes`): a linear
fetch → filter → format pipeline over a USGS earthquake JSON feed.

Network I/O is not executed here: the fetched feed document appears as an
explicit `List Feature` argument (the value of `json.load(urlopen(url))['features']`),
and the geocoding service behind `_get_location` appears as an explicit
oracle function from coordinates to the region name the service returns.
Everything else is translated directly from the Python source.
-/

namespace Solution

/-! ### Python string primitives

`str.split(sep)` for a one-character separator and `str.strip()`,
modelled on the character list of the string. Python's `split` on a
string with no occurrence of the separator returns the whole string as a
one-element list, and `''.split(',') == ['']`; `List.splitOnP` has
exactly this behaviour. -/

/-- Python `s.split(sep)` for a single-character separator. -/
def pySplit (s : String) (sep : Char) : List String :=
  (s.toList.splitOnP (· == sep)).map (fun cs => String.mk cs)

/-- Python `s.strip()`: remove leading and trailing whitespace. -/
def pyStrip (s : String) : String :=
  String.mk (((s.toList.dropWhile Char.isWhitespace).reverse.dropWhile Char.isWhitespace).reverse)

/-! ### Rendering natural numbers (digit strings) -/

/-- Decimal digits of `n` (most significant first), by fuel recursion so the
kernel can evaluate it; 32 digits of fuel is ample for every value in scope. -/
def natDigitsAux : Nat → Nat → List Char
  | 0, _ => []
  | fuel + 1, n => if n = 0 then [] else natDigitsAux fuel (n / 10) ++ [Char.ofNat (48 + n % 10)]

/-- Decimal string of a natural number. -/
def natStr (n : Nat) : String :=
  if n = 0 then "0" else String.mk (natDigitsAux 32 n)

/-- Decimal string of an integer (Python `str` on `int`). -/
def intStr (n : Int) : String :=
  if n < 0 then "-" ++ natStr n.natAbs else natStr n.natAbs

/-- Two-digit zero-padded field, as `strftime` `%m`/`%d`/`%H`/`%M`/`%S` produce. -/
def pad2 (n : Nat) : String :=
  if n < 10 then "0" ++ natStr n else natStr n

/-! ### Time conversion (`_convert_time`)

`datetime.fromtimestamp(unix_time/1000, tz=timezone.utc).strftime('%Y-%m-%dT%H:%M:%S%z')`.
For the nonnegative millisecond timestamps the feed carries, the float
division followed by `fromtimestamp` yields the calendar time of
`⌊ms / 1000⌋` seconds after the Unix epoch (`%S` carries no fractional
part), and `%z` for `timezone.utc` renders as the fixed string `+0000`.
The Gregorian conversion is the standard days-to-civil algorithm,
specialised to nonnegative day counts (the feed spans the past week). -/

/-- Days since 1970-01-01 to Gregorian `(year, month, day)`, for `z ≥ 0`. -/
def civilFromDays (z : Nat) : Nat × Nat × Nat :=
  let z' := z + 719468
  let era := z' / 146097
  let doe := z' % 146097
  let yoe := (doe - doe / 1460 + doe / 36524 - doe / 146096) / 365
  let y := yoe + era * 400
  let doy := doe - (365 * yoe + yoe / 4 - yoe / 100)
  let mp := (5 * doy + 2) / 153
  let d := doy - (153 * mp + 2) / 5 + 1
  let m := if mp < 10 then mp + 3 else mp - 9
  (if m ≤ 2 then y + 1 else y, m, d)

/-- Render seconds since the epoch as `YYYY-MM-DDTHH:MM:SS` in UTC. -/
def renderUTC (secs : Nat) : String :=
  let days := secs / 86400
  let rem := secs % 86400
  let ymd := civilFromDays days
  natStr ymd.1 ++ "-" ++ pad2 ymd.2.1 ++ "-" ++ pad2 ymd.2.2 ++ "T" ++
    pad2 (rem / 3600) ++ ":" ++ pad2 (rem % 3600 / 60) ++ ":" ++ pad2 (rem % 60)

/-- `Earthquakes._convert_time`: milliseconds since the epoch to the ISO-8601
string with numeric UTC offset. -/
def convert_time (unix_time : Nat) : String :=
  renderUTC (unix_time / 1000) ++ "+0000"

/-! ### Python numbers and `str`

`json.load` parses a JSON number literal without a decimal point as a
Python `int` (kept exact) and one with a decimal point as a Python
`float`, the IEEE-754 binary64 value nearest the literal (ties to even).
`str` on an `int` is its decimal form; `str` on a `float` is CPython's
`repr`: the shortest decimal string that reads back as the same binary64
value. Binary64 values in the normal range are modelled exactly as pairs
`(sig, exp)` with value `sig · 2^exp` and `2^52 ≤ |sig| < 2^53`. All
rounding is carried out over exact fractions represented as integer
pairs `(n, d)` with `d > 0` (kept unnormalised so every step is plain
integer arithmetic). -/

/-- A JSON number literal: an integer, or a decimal literal `m × 10⁻ᵈ`. -/
inductive JsonNum where
  | jint : Int → JsonNum
  | jdec : Int → Nat → JsonNum
  deriving DecidableEq

/-- The Python runtime value `json.load` produces for a number. A float in
the normal binary64 range is the exact dyadic `sig · 2^exp`. -/
inductive PyNum where
  | pyInt : Int → PyNum
  | pyFloat : Int → Int → PyNum
  deriving DecidableEq

/-- Scale the fraction `n / d` by `2^k`, keeping an integer pair. -/
def scalePow2 (n d k : Int) : Int × Int :=
  if 0 ≤ k then (n * 2 ^ k.toNat, d) else (n, d * 2 ^ (-k).toNat)

/-- Scale the fraction `n / d` by `10^k`, keeping an integer pair. -/
def scalePow10 (n d k : Int) : Int × Int :=
  if 0 ≤ k then (n * 10 ^ k.toNat, d) else (n, d * 10 ^ (-k).toNat)

/-- Round the fraction `n / d` (with `d > 0`) to the nearest integer, ties
to even (the IEEE default rounding). -/
def roundHalfEven (n d : Int) : Int :=
  let f := Int.fdiv n d
  let r2 := 2 * (n - f * d)
  if r2 < d then f
  else if d < r2 then f + 1
  else if f % 2 = 0 then f else f + 1

/-- Binary exponent search: for `n / d > 0` returns `e` with
`2^e ≤ n/d < 2^(e+1)`. Fuel-bounded; 2200 steps covers the entire binary64
exponent range. -/
def frexpAux : Nat → Int → Int → Int → Int
  | 0, _, _, e => e
  | fuel + 1, n, d, e =>
    if n < d then frexpAux fuel (2 * n) d (e - 1)
    else if 2 * d ≤ n then frexpAux fuel n (2 * d) (e + 1)
    else e

/-- `⌊log₂ (n/d)⌋` for `n / d > 0`. -/
def ilog2 (n d : Int) : Int := frexpAux 2200 n d 0

/-- Decimal exponent search: for `n / d > 0` returns `e` with
`10^e ≤ n/d < 10^(e+1)`. -/
def dlogAux : Nat → Int → Int → Int → Int
  | 0, _, _, e => e
  | fuel + 1, n, d, e =>
    if n < d then dlogAux fuel (10 * n) d (e - 1)
    else if 10 * d ≤ n then dlogAux fuel n (10 * d) (e + 1)
    else e

/-- `⌊log₁₀ (n/d)⌋` for `n / d > 0`. -/
def ilog10 (n d : Int) : Int := dlogAux 700 n d 0

/-- Round the fraction `n / d` (with `d > 0`) to the nearest binary64 value
(normal range, ties to even), returned as `(sig, exp)` with
`2^52 ≤ |sig| ≤ 2^53 - 1`, or `(0, 0)` for zero. -/
def toDouble (n d : Int) : Int × Int :=
  if n = 0 then (0, 0)
  else
    let a := if n < 0 then -n else n
    let e := ilog2 a d
    let exp := e - 52
    let nd := scalePow2 a d (-exp)
    let sig := roundHalfEven nd.1 nd.2
    let norm := if sig = 2 ^ 53 then ((2 ^ 52 : Int), exp + 1) else (sig, exp)
    (if n < 0 then -norm.1 else norm.1, norm.2)

/-- The exact value of the binary64 `(s, e)` as an integer fraction. -/
def dvalFrac (s e : Int) : Int × Int := scalePow2 s 1 e

/-- The exact value of the decimal `m × 10^p` as an integer fraction. -/
def decFrac (m p : Int) : Int × Int := scalePow10 m 1 p

/-- The Python value of a parsed JSON number. -/
def jsonToPy : JsonNum → PyNum
  | .jint n => .pyInt n
  | .jdec m d =>
    let sd := toDouble m ((10 : Int) ^ d)
    .pyFloat sd.1 sd.2

/-- Round `n / d > 0` to `k ≥ 1` significant decimal digits (nearest, ties
to even): a pair `(m, p)` denoting `m × 10^p` with `m` a `k`-digit integer. -/
def roundSig (n d : Int) (k : Nat) : Int × Int :=
  let e := ilog10 n d
  let p := e - ((k : Int) - 1)
  let nd := scalePow10 n d (-p)
  let m := roundHalfEven nd.1 nd.2
  if m = (10 : Int) ^ k then (((10 : Int) ^ (k - 1)), p + 1) else (m, p)

/-- Search, from `k` significant digits up, for the least `k` whose nearest
`k`-digit decimal reads back as the binary64 `(s, e)`; CPython's `repr`
prints that decimal. 17 digits always suffice for binary64. -/
def shortestAux (n d s e : Int) : Nat → Nat → Int × Int
  | 0, _ => roundSig n d 17
  | fuel + 1, k =>
    let mp := roundSig n d k
    let back := decFrac mp.1 mp.2
    if toDouble back.1 back.2 = (s, e) then mp
    else shortestAux n d s e fuel (k + 1)

/-- Shortest round-tripping decimal `(m, p)` (value `m × 10^p`) for the
positive binary64 `(s, e)`. -/
def shortestDigits (s e : Int) : Int × Int :=
  let v := dvalFrac s e
  shortestAux v.1 v.2 s e 17 1

/-- Render a positive decimal `m × 10^p` the way CPython's float `repr`
lays it out: fixed point while the decimal exponent is in `[-4, 16)`,
scientific beyond, and a trailing `.0` on integral values. -/
def renderDecimal (m : Int) (p : Int) : String :=
  let D := natStr m.natAbs
  let k : Int := (D.length : Int)
  let dexp := p + k - 1
  if dexp < -4 ∨ 16 ≤ dexp then
    let mantissa :=
      if D.length = 1 then D else D.take 1 ++ "." ++ D.drop 1
    let esign := if dexp < 0 then "-" else "+"
    let eabs := dexp.natAbs
    mantissa ++ "e" ++ esign ++ (if eabs < 10 then "0" ++ natStr eabs else natStr eabs)
  else if 0 ≤ p then
    D ++ String.mk (List.replicate p.toNat '0') ++ ".0"
  else if 0 ≤ dexp then
    D.take (dexp + 1).toNat ++ "." ++ D.drop (dexp + 1).toNat
  else
    "0." ++ String.mk (List.replicate (-dexp - 1).toNat '0') ++ D

/-- Python `str` on a float given as binary64 `(s, e)`. -/
def pyFloatStr (s e : Int) : String :=
  if s = 0 then "0.0"
  else
    let sign := if s < 0 then "-" else ""
    let mp := shortestDigits (if s < 0 then -s else s) e
    sign ++ renderDecimal mp.1 mp.2

/-- Python `str` on a number. -/
def pyNumStr : PyNum → String
  | .pyInt n => intStr n
  | .pyFloat s e => pyFloatStr s e

/-- Python `str` applied to `properties['mag']`, which is a number or
`None` (JSON `null`); `str(None)` is the string `None`. -/
def pyStrMag : Option PyNum → String
  | none => "None"
  | some v => pyNumStr v

/-! ### The feed data model

One GeoJSON feature of the `all_week` feed, restricted to the fields the
program reads: `properties.type`, `properties.place`, `properties.mag`
(number or `null`), `properties.time` (integer milliseconds) and
`geometry.coordinates` (`[longitude, latitude, depth]`). `mag` is kept as
the Python value `json.load` produced. -/

structure Properties where
  type : String
  place : String
  mag : Option PyNum
  time : Nat
  deriving DecidableEq

structure Geometry where
  coordinates : List JsonNum
  deriving DecidableEq

structure Feature where
  properties : Properties
  geometry : Geometry
  deriving DecidableEq

/-- The response of the USGS geoserve regions endpoint for a
`(longitude, latitude)` query: the `name` of the first `neiccatalog`
feature. The network service is a parameter of the model. -/
def GeoOracle := JsonNum → JsonNum → String

/-! ### The `Earthquakes` class -/

/-- The instance attributes set up in `Earthquakes.__init__`. -/
structure Earthquakes where
  usgs_url : String
  usgs_regions_url : String
  filter_values : List String
  filter_type : String
  filtered_earthquakes : List Feature
  filtered_earthquakes_log : String

/-- `Earthquakes.__init__(self, filter_values, filter_type)`. Both
parameters are accepted but never read: every attribute is assigned a
literal. -/
def init (_filter_values : List String) (_filter_type : String) : Earthquakes :=
  { usgs_url := "https://earthquake.usgs.gov/earthquakes/feed/v1.0/summary/all_week.geojson"
    usgs_regions_url := "https://earthquake.usgs.gov/ws/geoserve/regions.json"
    filter_values := ["CA", "California"]
    filter_type := "earthquake"
    filtered_earthquakes := []
    filtered_earthquakes_log := "" }

/-- The comprehension condition of `_filter_earthquakes`:
`quakes['properties']['type'] == self.filter_type and
 quakes['properties']['place'].split(',')[-1].strip() in self.filter_values`. -/
def textMatch (self : Earthquakes) (quakes : Feature) : Bool :=
  quakes.properties.type == self.filter_type &&
    self.filter_values.contains (pyStrip ((pySplit quakes.properties.place ',').getLastD ""))

/-- `Earthquakes._filter_earthquakes(self)`: reverse the fetched feature
list (the feed is chronologically descending), keep the features passing
`textMatch`, assign the result to `self.filtered_earthquakes` and return
it. The fetched document's `features` value is the `feed` parameter. -/
def filter_earthquakes (self : Earthquakes) (feed : List Feature) : Earthquakes × List Feature :=
  let earthquakes := feed.reverse
  let result := earthquakes.filter (textMatch self)
  ({ self with filtered_earthquakes := result }, result)

/-- `Earthquakes._get_location(self, geometry)`: query the regions service
with the first two coordinates; the reply is given by the oracle. -/
def get_location (oracle : GeoOracle) (geometry : List JsonNum) : String :=
  let longitude := geometry.getD 0 (.jint 0)
  let latitude := geometry.getD 1 (.jint 0)
  oracle longitude latitude

/-- The loop condition of `_filter_earthquakes_by_coordinates`:
`quakes['properties']['type'] == self.filter_type and location in self.filter_values`
where `location = self._get_location(quakes['geometry']['coordinates'])`. -/
def coordMatch (self : Earthquakes) (oracle : GeoOracle) (quakes : Feature) : Bool :=
  let location := get_location oracle quakes.geometry.coordinates
  quakes.properties.type == self.filter_type && self.filter_values.contains location

/-- The `for` loop of `_filter_earthquakes_by_coordinates`: walk the
reversed feed in order and append each matching feature to the
accumulator attribute. -/
def coordLoop (self : Earthquakes) (oracle : GeoOracle) :
    List Feature → List Feature → List Feature
  | [], acc => acc
  | quakes :: rest, acc =>
    coordLoop self oracle rest (if coordMatch self oracle quakes then acc ++ [quakes] else acc)

/-- `Earthquakes._filter_earthquakes_by_coordinates(self)`: reverse the
fetched feature list, then append every feature whose type matches and
whose geocoded location is in `filter_values` to
`self.filtered_earthquakes` (which is not cleared first), and return it. -/
def filter_earthquakes_by_coordinates (self : Earthquakes) (oracle : GeoOracle)
    (feed : List Feature) : Earthquakes × List Feature :=
  let earthquakes := feed.reverse
  let result := coordLoop self oracle earthquakes self.filtered_earthquakes
  ({ self with filtered_earthquakes := result }, result)

/-- The output line built for one feature in `log_earthquakes`:
`time + ' | ' + place + ' | magnitude : ' + magnitude`. -/
def lineOf (quakes : Feature) : String :=
  convert_time quakes.properties.time ++ " | " ++ quakes.properties.place ++
    " | magnitude : " ++ pyStrMag quakes.properties.mag

/-- The `for i in range(len(...))` loop of `log_earthquakes`: accumulate
each line into `filtered_earthquakes_log` and print it. The returned list
collects the lines passed to `print`, in order. -/
def logLoop : List Feature → String → List String → String × List String
  | [], log, out => (log, out)
  | quakes :: rest, log, out => logLoop rest (log ++ lineOf quakes) (out ++ [lineOf quakes])

/-- `Earthquakes.log_earthquakes(self)`: run the coordinate filter (the
text filter call is commented out in the source), then format and print
one line per filtered feature. Returns the updated instance and the
printed lines. -/
def log_earthquakes (self : Earthquakes) (oracle : GeoOracle) (feed : List Feature) :
    Earthquakes × List String :=
  let self := (filter_earthquakes_by_coordinates self oracle feed).1
  let r := logLoop self.filtered_earthquakes self.filtered_earthquakes_log []
  ({ self with filtered_earthquakes_log := r.1 }, r.2)

/-- The `__main__` block: construct
`Earthquakes(filter_values=['CA', 'California'], filter_type='earthquake')`
and call `log_earthquakes`; standard output is the printed lines, each
terminated by a newline. -/
def mainOutput (filter_values : List String) (filter_type : String)
    (oracle : GeoOracle) (feed : List Feature) : String :=
  String.join (((log_earthquakes (init filter_values filter_type) oracle feed).2).map
    (fun line => line ++ "\n"))

/-! ### Sample feed entries and geocoder responses

Concrete values used to instantiate the theorems below; each is shaped
like a real `all_week` feature. -/

/-- A Californian quake, integral magnitude `1` (spec §8 example). -/
def fGreenville : Feature :=
  { properties :=
      { type := "earthquake", place := "3km NW of Greenville, California"
        mag := some (jsonToPy (.jint 1)), time := 1499978617000 }
    geometry := { coordinates := [.jdec (-120885) 3, .jdec 40178 3, .jdec 51 1] } }

/-- A Californian quake, fractional magnitude `2.76` (spec §8 example). -/
def fFerndale : Feature :=
  { properties :=
      { type := "earthquake", place := "41km SW of Ferndale, California"
        mag := some (jsonToPy (.jdec 276 2)), time := 1499983793000 }
    geometry := { coordinates := [.jdec (-124537) 3, .jdec 40324 3, .jdec 58 1] } }

/-- A quake whose place field contains no comma yet is itself a region
label of the filter set. -/
def fBareCalifornia : Feature :=
  { properties :=
      { type := "earthquake", place := "California"
        mag := some (jsonToPy (.jdec 12 1)), time := 1499990000000 }
    geometry := { coordinates := [.jdec (-120) 0, .jdec 37 0, .jint 5] } }

/-- A quake whose place field contains no comma (spec §8 boundary case). -/
def fPacificRidge : Feature :=
  { properties :=
      { type := "earthquake", place := "Pacific-Antarctic Ridge"
        mag := some (jsonToPy (.jdec 45 1)), time := 1499991000000 }
    geometry := { coordinates := [.jdec (-1121) 1, .jdec (-622) 1, .jint 10] } }

/-- A Californian quake whose magnitude is JSON `null`. -/
def fNullMag : Feature :=
  { properties :=
      { type := "earthquake", place := "somewhere, CA"
        mag := none, time := 0 }
    geometry := { coordinates := [.jdec (-118) 0, .jdec 36 0, .jint 3] } }

/-- A geocoding service that classifies every coordinate as `CA`. -/
def oracleCA : GeoOracle := fun _ _ => "CA"

/-- A geocoding service that classifies every coordinate as `Nevada`. -/
def oracleNevada : GeoOracle := fun _ _ => "Nevada"

end Solution

namespace Solution

/-! ### Helper lemmas -/

theorem stringMk_toList (s : String) : String.mk s.toList = s := rfl

theorem coordLoop_eq (self : Earthquakes) (oracle : GeoOracle) (l acc : List Feature) :
    coordLoop self oracle l acc = acc ++ l.filter (coordMatch self oracle) := by
  induction l generalizing acc with
  | nil => simp [coordLoop]
  | cons q rest ih =>
    by_cases h : coordMatch self oracle q
    · simp [coordLoop, h, ih]
    · simp [coordLoop, h, ih]

theorem coords_filtered_eq (self : Earthquakes) (oracle : GeoOracle) (feed : List Feature) :
    (filter_earthquakes_by_coordinates self oracle feed).2
      = self.filtered_earthquakes ++ feed.reverse.filter (coordMatch self oracle) := by
  simp [filter_earthquakes_by_coordinates, coordLoop_eq]

theorem logLoop_snd (l : List Feature) (log : String) (out : List String) :
    (logLoop l log out).2 = out ++ l.map lineOf := by
  induction l generalizing log out with
  | nil => simp [logLoop]
  | cons q rest ih => simp [logLoop, ih]

theorem log_lines_eq (self : Earthquakes) (oracle : GeoOracle) (feed : List Feature) :
    (log_earthquakes self oracle feed).2
      = ((filter_earthquakes_by_coordinates self oracle feed).2).map lineOf := by
  simp [log_earthquakes, logLoop_snd, filter_earthquakes_by_coordinates]

theorem coordMatch_update (self : Earthquakes) (oracle : GeoOracle) (l : List Feature) :
    coordMatch { self with filtered_earthquakes := l } oracle = coordMatch self oracle :=
  rfl

theorem text_mem_iff (fv : List String) (ft : String) (feed : List Feature) (q : Feature) :
    q ∈ (filter_earthquakes (init fv ft) feed).2 ↔
      q ∈ feed ∧ q.properties.type = "earthquake" ∧
        pyStrip ((pySplit q.properties.place ',').getLastD "")
          ∈ (["CA", "California"] : List String) := by
  simp only [filter_earthquakes, List.mem_filter, List.mem_reverse]
  constructor
  · rintro ⟨hmem, hmatch⟩
    simp only [textMatch, init, Bool.and_eq_true, beq_iff_eq] at hmatch
    exact ⟨hmem, hmatch.1, List.elem_iff.mp hmatch.2⟩
  · rintro ⟨hmem, htype, hset⟩
    refine ⟨hmem, ?_⟩
    simp only [textMatch, init, Bool.and_eq_true, beq_iff_eq]
    exact ⟨htype, List.elem_iff.mpr hset⟩

/-! ### Claims -/

/-- C1: the text-match strategy accepts a fetched entry iff its event-type
field equals the configured type `earthquake` and the trimmed substring
after the last comma of its place field (the last component of Python's
`split(',')`) is in the region set `{CA, California}`; consequently every
entry it emits has event-type exactly `earthquake`. -/
theorem text_filter_accepts_iff_type_and_region
    (fv : List String) (ft : String) (feed : List Feature) (q : Feature) :
    (q ∈ (filter_earthquakes (init fv ft) feed).2 ↔
      q ∈ feed ∧ q.properties.type = "earthquake" ∧
        pyStrip ((pySplit q.properties.place ',').getLastD "")
          ∈ (["CA", "California"] : List String)) ∧
    ((filter_earthquakes (init fv ft) feed).2.all
      (fun e => e.properties.type == "earthquake")) = true := by
  refine ⟨text_mem_iff fv ft feed q, ?_⟩
  rw [List.all_eq_true]
  intro e he
  have := (text_mem_iff fv ft feed e).mp he
  exact beq_iff_eq.mpr this.2.1

/-- C2 as stated is false on the code: `fBareCalifornia` has place field
`California`, which contains no comma, yet the text-match strategy accepts
it, because Python's `split(',')` on a comma-less string yields the whole
string and `California` is itself in the filter set. -/
theorem no_comma_place_can_match :
    ("California".toList.contains ',') = false ∧
      (filter_earthquakes (init ["CA", "California"] "earthquake") [fBareCalifornia]).2
        = [fBareCalifornia] := by
  decide

/-- C2 amended: an entry whose place field contains no comma is excluded by
the text-match strategy unless the entire place field, stripped of
whitespace, is itself a member of the region set `{CA, California}`. -/
theorem no_comma_place_matches_iff_whole_place_in_set
    (fv : List String) (ft : String) (feed : List Feature) (q : Feature)
    (h : ∀ c ∈ q.properties.place.toList, c ≠ ',') :
    q ∈ (filter_earthquakes (init fv ft) feed).2 ↔
      q ∈ feed ∧ q.properties.type = "earthquake" ∧
        pyStrip q.properties.place ∈ (["CA", "California"] : List String) := by
  have hsplit : pySplit q.properties.place ',' = [q.properties.place] := by
    unfold pySplit
    rw [List.splitOnP_eq_single]
    · simp [stringMk_toList]
    · intro x hx
      simpa using h x hx
  rw [text_mem_iff, hsplit]
  rfl

/-- Witness for the amended C2: the spec's own boundary example
`Pacific-Antarctic Ridge` (no comma, not a region label) is excluded. -/
theorem no_comma_whole_place_excluded_at_ridge :
    fPacificRidge ∉
      (filter_earthquakes (init ["CA", "California"] "earthquake") [fPacificRidge]).2 := by
  intro hmem
  have h := (no_comma_place_matches_iff_whole_place_in_set
    ["CA", "California"] "earthquake" [fPacificRidge] fPacificRidge (by decide)).mp hmem
  exact absurd h.2.2 (by decide)

/-- C3: both strategies reverse the fetched list and then filter it, so on
a newest-first (descending-by-timestamp) feed, any emitted entry printed
before another has a smaller-or-equal source timestamp — for the
text-match strategy and for the coordinate strategy run on the fresh
instance the program constructs. -/
theorem filters_emit_ascending_on_descending_feed
    (fv : List String) (ft : String) (oracle : GeoOracle) (feed : List Feature)
    (h : feed.Pairwise (fun a b => b.properties.time ≤ a.properties.time)) :
    ((filter_earthquakes (init fv ft) feed).2.Pairwise
        (fun a b => a.properties.time ≤ b.properties.time)) ∧
    ((filter_earthquakes_by_coordinates (init fv ft) oracle feed).2.Pairwise
        (fun a b => a.properties.time ≤ b.properties.time)) := by
  have hrev : feed.reverse.Pairwise (fun a b => a.properties.time ≤ b.properties.time) :=
    List.pairwise_reverse.mpr h
  constructor
  · exact List.Pairwise.sublist (List.filter_sublist _) hrev
  · rw [coords_filtered_eq]
    simp only [init, List.nil_append]
    exact List.Pairwise.sublist (List.filter_sublist _) hrev

/-- Witness for C3 on a concrete two-entry descending feed. -/
theorem filters_emit_ascending_at_sample :
    ((filter_earthquakes (init ["CA", "California"] "earthquake")
        [fFerndale, fGreenville]).2.Pairwise
      (fun a b => a.properties.time ≤ b.properties.time)) ∧
    ((filter_earthquakes_by_coordinates (init ["CA", "California"] "earthquake") oracleCA
        [fFerndale, fGreenville]).2.Pairwise
      (fun a b => a.properties.time ≤ b.properties.time)) :=
  filters_emit_ascending_on_descending_feed
    ["CA", "California"] "earthquake" oracleCA [fFerndale, fGreenville] (by decide)

/-- C4 as stated is false on the code: for a filtered entry whose magnitude
is JSON `null`, Python's `str(None)` is simply the string `None` — no error
is raised, the run does not abort, and a line *is* printed for the entry. -/
theorem null_magnitude_line_is_emitted :
    (log_earthquakes (init ["CA", "California"] "earthquake") oracleCA [fNullMag]).2
      = ["1970-01-01T00:00:00+0000 | somewhere, CA | magnitude : None"] := by
  decide

/-- C4 amended: for every filtered entry whose magnitude is absent, a line
is still emitted, with the magnitude rendered as the string `None`; the
run completes normally. -/
theorem null_magnitude_renders_none
    (self : Earthquakes) (oracle : GeoOracle) (feed : List Feature) (q : Feature)
    (hq : q ∈ (filter_earthquakes_by_coordinates self oracle feed).2)
    (hm : q.properties.mag = none) :
    (convert_time q.properties.time ++ " | " ++ q.properties.place ++ " | magnitude : None")
      ∈ (log_earthquakes self oracle feed).2 := by
  rw [log_lines_eq]
  have hline : lineOf q = convert_time q.properties.time ++ " | " ++ q.properties.place ++
      " | magnitude : None" := by
    simp only [lineOf, hm, pyStrMag]
    rw [String.append_assoc]
    rfl
  exact hline ▸ List.mem_map_of_mem lineOf hq

/-- Witness for the amended C4 at a concrete null-magnitude entry. -/
theorem null_magnitude_renders_none_at_sample :
    (convert_time fNullMag.properties.time ++ " | " ++ fNullMag.properties.place ++
        " | magnitude : None")
      ∈ (log_earthquakes (init ["CA", "California"] "earthquake") oracleCA [fNullMag]).2 :=
  null_magnitude_renders_none (init ["CA", "California"] "earthquake") oracleCA
    [fNullMag] fNullMag (by decide) rfl

/-- C5 as stated is false on the code: the two strategies are not
interchangeable. On the same one-entry feed whose place suffix is
`California`, the text-match strategy emits the entry while the coordinate
strategy consults the geocoding service, and with a service response of
`Nevada` it emits nothing. -/
theorem strategies_differ_on_discrepant_oracle :
    (filter_earthquakes (init ["CA", "California"] "earthquake") [fFerndale]).2
      ≠ (filter_earthquakes_by_coordinates (init ["CA", "California"] "earthquake")
          oracleNevada [fFerndale]).2 := by
  decide

/-- C5 amended: the two strategies are not interchangeable in general (see
the counterexample above); they do produce the same filtered sequence on a
fresh instance whenever, for every fetched entry, the geocoding service's
region answer lies in the filter set precisely when the entry's trimmed
place suffix does. The hypothesis states that entrywise agreement; it is
sufficient, not necessary (a non-earthquake entry is dropped by both
strategies regardless of the oracle). -/
theorem strategies_agree_when_oracle_matches_suffix
    (fv : List String) (ft : String) (oracle : GeoOracle) (feed : List Feature)
    (h : ∀ q ∈ feed,
      (["CA", "California"] : List String).contains
          (get_location oracle q.geometry.coordinates)
        = (["CA", "California"] : List String).contains
            (pyStrip ((pySplit q.properties.place ',').getLastD ""))) :
    (filter_earthquakes (init fv ft) feed).2
      = (filter_earthquakes_by_coordinates (init fv ft) oracle feed).2 := by
  rw [coords_filtered_eq]
  simp only [filter_earthquakes, init, List.nil_append]
  apply List.filter_congr
  intro x hx
  have hx' := h x (List.mem_reverse.mp hx)
  simp only [textMatch, coordMatch, init] at hx' ⊢
  rw [hx']

/-- Witness for the amended C5: with a geocoder that answers `CA`
everywhere, both strategies emit the single Californian entry. -/
theorem strategies_agree_at_sample :
    (filter_earthquakes (init ["CA", "California"] "earthquake") [fFerndale]).2
      = (filter_earthquakes_by_coordinates (init ["CA", "California"] "earthquake")
          oracleCA [fFerndale]).2 :=
  strategies_agree_when_oracle_matches_suffix
    ["CA", "California"] "earthquake" oracleCA [fFerndale] (by decide)

/-- C6: `_convert_time` divides the millisecond timestamp by 1000,
interprets the quotient as a UTC instant and renders it in the fixed
numeric-offset form; on input 1500000000000 it yields exactly
`2017-07-14T02:40:00+0000`. -/
theorem convert_time_div1000_utc_fixed_offset :
    convert_time 1500000000000 = "2017-07-14T02:40:00+0000" ∧
      ∀ ms : Nat, convert_time ms = renderUTC (ms / 1000) ++ "+0000" :=
  ⟨by decide, fun _ => rfl⟩

/-- C7: every printed line is exactly
`<formatted time> | <place> | magnitude : <magnitude>` with the magnitude
in Python's natural string form: the JSON-integral magnitude `1` renders
as `1` (no trailing `.0`) and the magnitude `2.76` renders — through the
binary64 shortest-round-trip representation — as exactly `2.76`. -/
theorem log_line_format_and_magnitude_repr
    (self : Earthquakes) (oracle : GeoOracle) (feed : List Feature) :
    (log_earthquakes self oracle feed).2
      = ((filter_earthquakes_by_coordinates self oracle feed).2).map
          (fun q => convert_time q.properties.time ++ " | " ++ q.properties.place ++
            " | magnitude : " ++ pyStrMag q.properties.mag) ∧
    pyStrMag (some (jsonToPy (.jint 1))) = "1" ∧
    pyStrMag (some (jsonToPy (.jdec 276 2))) = "2.76" :=
  ⟨log_lines_eq self oracle feed, by decide, by decide⟩

/-- C8: the pipeline is deterministic — standard output is a function of
the fetched document and the geocoder's responses alone; in particular
two complete runs (each on a fresh instance, with any constructor
arguments) produce byte-identical output. -/
theorem main_output_deterministic
    (fv₁ : List String) (ft₁ : String) (fv₂ : List String) (ft₂ : String)
    (oracle : GeoOracle) (feed : List Feature) :
    mainOutput fv₁ ft₁ oracle feed = mainOutput fv₂ ft₂ oracle feed := rfl

/-- C9: the constructor ignores both of its arguments — every instance has
`filter_values = ['CA', 'California']` and `filter_type = 'earthquake'`,
and instances built from any two argument pairs are equal, so the
arguments cannot influence any subsequent behaviour. -/
theorem init_ignores_arguments (fv : List String) (ft : String) :
    (init fv ft).filter_values = ["CA", "California"] ∧
      (init fv ft).filter_type = "earthquake" ∧
      init fv ft = init ["CA", "California"] "earthquake" :=
  ⟨rfl, rfl, rfl⟩

/-- C10: the coordinate strategy appends to `filtered_earthquakes` without
clearing it — after a call the attribute equals its previous contents
followed by the newly matched entries, and a second call on the same
instance appends the matched entries once more (each matched entry then
appears twice when starting from an empty list). -/
theorem coordinate_filter_appends_without_clearing
    (self : Earthquakes) (oracle : GeoOracle) (feed : List Feature) :
    ((filter_earthquakes_by_coordinates self oracle feed).1.filtered_earthquakes
        = self.filtered_earthquakes ++ feed.reverse.filter (coordMatch self oracle)) ∧
    ((filter_earthquakes_by_coordinates
          (filter_earthquakes_by_coordinates self oracle feed).1 oracle
          feed).1.filtered_earthquakes
        = self.filtered_earthquakes ++ feed.reverse.filter (coordMatch self oracle)
            ++ feed.reverse.filter (coordMatch self oracle)) := by
  constructor
  · simp [filter_earthquakes_by_coordinates, coordLoop_eq]
  · simp [filter_earthquakes_by_coordinates, coordLoop_eq, coordMatch_update, List.append_assoc]

end Solution
